import Mathlib

/-!
Verification development for the rpi-iot-network repository.

Shallow embedding of:
* `src/apple-dashboard-fixed.py` — the coordinator dashboard: heartbeat
  registry (`receive_heartbeat`), status/nodes queries, and the LED command
  relay (`toggle_led`);
* `src/esp32_monitor_logger.py` — the failover observer line classifier
  (`detect_events`, `process_line`);
* `src/example-client_app.py` — the node agent device manager
  (`control_led` with the auto-off timer bookkeeping).

JSON values are modelled by an inductive `Json`; Python dicts that the code
indexes by request-supplied keys are modelled as association lists with
Python's insert-or-replace assignment semantics, keyed by the hashable JSON
scalars (`JsonKey` — Python raises `TypeError` on a list/dict key).  Time is
abstracted to `Nat` (wall-clock readings are passed in as parameters).
Outbound HTTP traffic of the relay is made observable: `toggle_led` returns
the list of requests it issued, and the remote's behavior is a `NetOutcome`
parameter.
-/

namespace RpiIot

/-- JSON values as decoded by Python (`request.get_json()` / `response.json()`). -/
inductive Json where
  | null : Json
  | bool (b : Bool) : Json
  | num (n : Int) : Json
  | str (s : String) : Json
  | arr (elems : List Json) : Json
  | obj (fields : List (String × Json)) : Json

/-- Hashable JSON scalars, the only decoded values Python accepts as dict
keys (a list/dict key raises `TypeError`).  Structural equality stands in
for Python equality (Python's numeric cross-type equalities such as
`True == 1` are outside the model). -/
inductive JsonKey where
  | null : JsonKey
  | bool (b : Bool) : JsonKey
  | num (n : Int) : JsonKey
  | str (s : String) : JsonKey
deriving DecidableEq, Repr

/-- The hashable-key view of a JSON value; `none` for the unhashable containers. -/
def Json.asKey : Json → Option JsonKey
  | .null => some .null
  | .bool b => some (.bool b)
  | .num n => some (.num n)
  | .str s => some (.str s)
  | .arr _ => none
  | .obj _ => none

/-- Python dict read `d.get(k)` / `d[k]`: first binding of `k`, if any. -/
def dictGet {κ α : Type} [DecidableEq κ] (k : κ) : List (κ × α) → Option α
  | [] => none
  | (k₁, v) :: rest => if k₁ = k then some v else dictGet k rest

/-- Python dict assignment `d[k] = v`: replace the binding in place if the key
is present, otherwise append a new binding (insertion order preserved). -/
def dictInsert {κ α : Type} [DecidableEq κ] (k : κ) (v : α) : List (κ × α) → List (κ × α)
  | [] => [(k, v)]
  | (k₁, v₁) :: rest => if k₁ = k then (k, v) :: rest else (k₁, v₁) :: dictInsert k v rest

/-- Python `del d[k]`: drop the binding for `k`. -/
def dictRemove {κ α : Type} [DecidableEq κ] (k : κ) (l : List (κ × α)) : List (κ × α) :=
  l.filter (fun p => decide (p.1 ≠ k))

/-- `data.get(k)` on a decoded JSON value: a lookup when it is an object
(Python raises `AttributeError` on anything else; callers model that case
separately). -/
def Json.get : Json → String → Option Json
  | .obj fields, k => dictGet k fields
  | _, _ => none

/-- Python truthiness of a decoded JSON value (`if x:`): `None`, `False`, `0`,
`""`, `[]`, `{}` are falsy. -/
def Json.truthy : Json → Bool
  | .null => false
  | .bool b => b
  | .num n => n != 0
  | .str s => s != ""
  | .arr elems => !elems.isEmpty
  | .obj fields => !fields.isEmpty

/-- Python `str(x)` on a decoded JSON value, as used in f-strings for
messages and URLs.  Scalar renderings are exact; container rendering is
approximate (the relay only interpolates scalar addresses and names). -/
def pyStr : Json → String
  | .null => "None"
  | .bool true => "True"
  | .bool false => "False"
  | .num n => toString n
  | .str s => s
  | .arr _ => "[...]"
  | .obj _ => "\x7b...\x7d"

/-- Python `str(x)` on a hashable JSON scalar, as used in f-strings. -/
def pyStrKey : JsonKey → String
  | .null => "None"
  | .bool true => "True"
  | .bool false => "False"
  | .num n => toString n
  | .str s => s

/-- One registry entry, built by `receive_heartbeat` from the request body:
`{"ip": data.get("ip"), "status": data.get("status"), "timestamp":
data.get("timestamp"), "devices": data.get("devices", []), "sensor_data":
data.get("sensor_data", {})}`. -/
structure NodeDescriptor where
  ip : Json
  status : Json
  timestamp : Json
  devices : Json
  sensor_data : Json

/-- The descriptor dict `receive_heartbeat` stores for a heartbeat body. -/
def buildDescriptor (data : Json) : NodeDescriptor where
  ip := (data.get "ip").getD .null
  status := (data.get "status").getD .null
  timestamp := (data.get "timestamp").getD .null
  devices := (data.get "devices").getD (.arr [])
  sensor_data := (data.get "sensor_data").getD (.obj [])

/-- The dashboard's global mutable state: `connected_clients` and
`last_heartbeat` (keyed by the JSON value of a heartbeat body's `node`
field). -/
structure ServerState where
  connected_clients : List (JsonKey × NodeDescriptor)
  last_heartbeat : List (JsonKey × Nat)

/-- A Flask response: status code plus JSON body. -/
structure HttpResponse where
  status : Nat
  body : Json

/-- Body of the heartbeat acknowledgment:
`{"status": "received", "timestamp": datetime.now().isoformat()}`. -/
def ackBody (now : Nat) : Json :=
  .obj [("status", .str "received"), ("timestamp", .num now)]

/-- `POST /api/heartbeat` (`receive_heartbeat`).  `body = none` models an
unparseable request body (`request.get_json()` raises, caught by the
`except` → 500); a parseable non-object body makes `data.get` raise
`AttributeError`, and an unhashable `node` value makes the dict assignment
raise `TypeError`, both also caught → 500 with the state untouched.
Otherwise: if the `node` field is present and truthy, overwrite
`connected_clients[node]` with the descriptor built from this body and
refresh `last_heartbeat[node]`; in every remaining parseable case
acknowledge with the server timestamp without touching the state. -/
def receive_heartbeat (s : ServerState) (body : Option Json) (now : Nat) :
    ServerState × HttpResponse :=
  match body with
  | none =>
    (s, ⟨500, .obj [("status", .str "error"), ("message", .str "invalid JSON body")]⟩)
  | some data =>
    match data with
    | .obj _ =>
      match data.get "node" with
      | some nodeVal =>
        if nodeVal.truthy then
          match nodeVal.asKey with
          | some k =>
            ({ connected_clients := dictInsert k (buildDescriptor data) s.connected_clients,
               last_heartbeat := dictInsert k now s.last_heartbeat },
             ⟨200, ackBody now⟩)
          | none =>
            (s, ⟨500, .obj [("status", .str "error"), ("message", .str "unhashable type")]⟩)
        else
          (s, ⟨200, ackBody now⟩)
      | none => (s, ⟨200, ackBody now⟩)
    | _ =>
      (s, ⟨500, .obj [("status", .str "error"), ("message", .str "attribute error")]⟩)

/-- Render a descriptor back to JSON (for the status/nodes responses). -/
def descriptorToJson (d : NodeDescriptor) : Json :=
  .obj [("ip", d.ip), ("status", d.status), ("timestamp", d.timestamp),
        ("devices", d.devices), ("sensor_data", d.sensor_data)]

/-- Render `connected_clients` to JSON (jsonify stringifies dict keys). -/
def clientsToJson (clients : List (JsonKey × NodeDescriptor)) : Json :=
  .obj (clients.map (fun p => (pyStrKey p.1, descriptorToJson p.2)))

/-- `GET /api/status` (`get_status`): read-only snapshot with the client count. -/
def get_status (s : ServerState) (now uptime : Nat) : HttpResponse :=
  ⟨200, .obj [("ap_status", .str "online"),
              ("connected_clients", clientsToJson s.connected_clients),
              ("client_count", .num s.connected_clients.length),
              ("timestamp", .num now),
              ("uptime", .num uptime)]⟩

/-- `GET /api/nodes` (`list_nodes`): identity list plus full descriptor map. -/
def list_nodes (s : ServerState) (now : Nat) : HttpResponse :=
  ⟨200, .obj [("nodes", .arr (s.connected_clients.map (fun p => .str (pyStrKey p.1)))),
              ("details", clientsToJson s.connected_clients),
              ("timestamp", .num now)]⟩

/-- Behavior of the remote node for one relayed `requests.post`:
a 200 answer whose body decodes to a JSON object (`ok`), a non-200 status
(`httpError`), `requests.exceptions.Timeout` (`timeout`),
`requests.exceptions.ConnectionError` (`connError`), or any other raised
exception with its `str(e)` rendering (`otherError`; this also covers a 200
answer whose body fails to decode to an object, since `response.json()` /
`data.get` then raise inside the same `try`). -/
inductive NetOutcome where
  | ok (payload : List (String × Json)) : NetOutcome
  | httpError (code : Nat) : NetOutcome
  | timeout : NetOutcome
  | connError : NetOutcome
  | otherError (msg : String) : NetOutcome

/-- One outbound HTTP request issued by the relay (`requests.post(url,
json=body, timeout=timeoutSec)`). -/
structure OutRequest where
  url : String
  body : Json
  timeoutSec : Nat

/-- The URL the relay posts to:
`http://{node_ip}:5000/{node_name}/api/v1/actuators/led`. -/
def ledUrl (node_ip : Json) (node_name : String) : String :=
  "http://" ++ pyStr node_ip ++ ":5000/" ++ node_name ++ "/api/v1/actuators/led"

/-- `POST /api/led/<node_name>/toggle` (`toggle_led`).  Returns the Flask
response together with the list of outbound requests performed.  Unknown
node → 404, no call; falsy stored ip → 400, no call; otherwise one request
with timeout 5 whose response is translated: 200-with-object → fresh body
carrying a success flag, the payload's `state` field (default `"unknown"`),
the node name and a server timestamp; non-200 → status passthrough with a
message; `Timeout` → 408; `ConnectionError` → 503; anything else → 500 with
the underlying message. -/
def toggle_led (s : ServerState) (node_name : String) (net : NetOutcome) (now : Nat) :
    HttpResponse × List OutRequest :=
  match dictGet (.str node_name) s.connected_clients with
  | none =>
    (⟨404, .obj [("success", .bool false),
                 ("message", .str ("Node " ++ node_name ++ " not connected"))]⟩, [])
  | some node_info =>
    let node_ip := node_info.ip
    if node_ip.truthy then
      let req : OutRequest :=
        ⟨ledUrl node_ip node_name, .obj [("state", .str "toggle")], 5⟩
      let resp : HttpResponse :=
        match net with
        | .ok payload =>
          ⟨200, .obj [("success", .bool true),
                      ("state", (dictGet "state" payload).getD (.str "unknown")),
                      ("node", .str node_name),
                      ("timestamp", .num now)]⟩
        | .httpError code =>
          ⟨code, .obj [("success", .bool false),
                       ("message", .str ("Node responded with status " ++ toString code))]⟩
        | .timeout =>
          ⟨408, .obj [("success", .bool false),
                      ("message", .str ("Timeout connecting to " ++ node_name))]⟩
        | .connError =>
          ⟨503, .obj [("success", .bool false),
                      ("message", .str ("Cannot connect to " ++ node_name ++ " at " ++
                                        pyStr node_ip))]⟩
        | .otherError msg =>
          ⟨500, .obj [("success", .bool false), ("message", .str ("Error: " ++ msg))]⟩
      (resp, [req])
    else
      (⟨400, .obj [("success", .bool false),
                   ("message", .str ("No IP address for node " ++ node_name))]⟩, [])

/-- The segment of `l` after the first occurrence of `sep`, if `sep` occurs. -/
def afterFirst (sep : List Char) : List Char → Option (List Char)
  | [] => none
  | c :: rest =>
    if sep.isPrefixOf (c :: rest) then some ((c :: rest).drop sep.length)
    else afterFirst sep rest

/-- The segment of `l` before the first occurrence of `sep` (all of `l` when
`sep` does not occur): Python `l.split(sep)[0]`. -/
def beforeFirst (sep : List Char) : List Char → List Char
  | [] => []
  | c :: rest =>
    if sep.isPrefixOf (c :: rest) then [] else c :: beforeFirst sep rest

/-- Python `l.split(sep)[1]` (for nonempty `sep`): the segment between the
first and second occurrences of `sep`; `none` (an `IndexError`) when `sep`
does not occur. -/
def pySplitSecond (sep l : List Char) : Option (List Char) :=
  (afterFirst sep l).map (beforeFirst sep)

/-- Python substring test `pat in s` (for the nonempty literals the
classifier checks). -/
def containsL (pat : List Char) : List Char → Bool
  | [] => pat.isEmpty
  | c :: rest => pat.isPrefixOf (c :: rest) || containsL pat rest

/-- Python substring test `pat in s`. -/
def strContains (s pat : String) : Bool :=
  containsL pat.toList s.toList

/-- ASCII lowering of one character, covering Python `str.lower()` on the
ASCII text the classifier sees. -/
def lowerChar (c : Char) : Char :=
  if 65 ≤ c.toNat && c.toNat ≤ 90 then Char.ofNat (c.toNat + 32) else c

/-- Python `s.lower()`. -/
def strToLower (s : String) : String :=
  String.mk (s.toList.map lowerChar)

/-- Python `s.strip()`: drop whitespace from both ends. -/
def trimL (l : List Char) : List Char :=
  ((l.dropWhile Char.isWhitespace).reverse.dropWhile Char.isWhitespace).reverse

/-- Python `int(s)` on an already-stripped character list: optional sign
followed by one or more digits; `none` is the `ValueError` path (Python's
underscore digit separators are outside the model). -/
def pyInt (l : List Char) : Option Int :=
  let digitsVal : List Char → Option Int := fun ds =>
    if !ds.isEmpty && ds.all Char.isDigit then
      some (ds.foldl (fun n c => n * 10 + ((c.toNat : Int) - ('0'.toNat : Int))) 0)
    else none
  match l with
  | '-' :: ds => (digitsVal ds).map (fun n => -n)
  | '+' :: ds => digitsVal ds
  | ds => digitsVal ds

/-- `int(line.split("Signal:")[1].split("dBm")[0].strip())`, the whole chain
inside `try`/`except: pass`. -/
def signalOf (line : String) : Option Int :=
  match pySplitSecond "Signal:".toList line.toList with
  | none => none
  | some seg => pyInt (trimL (beforeFirst "dBm".toList seg))

/-- `line.split("BSSID:")[1].strip()` (guarded by `"BSSID:" in line`, so the
index exists). -/
def macOf (line : String) : String :=
  match pySplitSecond "BSSID:".toList line.toList with
  | none => ""
  | some seg => String.mk (trimL seg)

/-- One record of the failover observer, as written to the events CSV
(`detect_events` builds it, `log_event_csv` persists it). -/
structure FailoverEvent where
  timestamp : String
  event_type : String
  primary_ap_status : String
  backup_ap_status : String
  active_ap_mac : String
  signal_strength : Int
  failover_detected : Bool
  details : String
deriving DecidableEq, Repr

/-- The first-match classification cascade of `detect_events`: failover
marker, then primary-AP status, then backup-AP status, then Apple-network
presence, else the `unknown` defaults. -/
def classify (line timestamp : String) : FailoverEvent :=
  let base : FailoverEvent :=
    ⟨timestamp, "unknown", "unknown", "unknown", "", 0, false, line⟩
  if strContains line "FAILOVER DETECTED" then
    { base with event_type := "failover", failover_detected := true }
  else if strContains line "Primary AP" then
    if strContains (strToLower line) "online" then
      { base with primary_ap_status := "online", event_type := "primary_ap_online" }
    else if strContains (strToLower line) "offline" then
      { base with primary_ap_status := "offline", event_type := "primary_ap_offline" }
    else base
  else if strContains line "Backup AP" then
    if strContains (strToLower line) "online" then
      { base with backup_ap_status := "online", event_type := "backup_ap_online" }
    else if strContains (strToLower line) "offline" then
      { base with backup_ap_status := "offline", event_type := "backup_ap_offline" }
    else base
  else if strContains line "Apple network found" then
    { base with event_type := "apple_network_detected" }
  else if strContains line "No Apple networks found" then
    { base with event_type := "apple_network_lost" }
  else base

/-- `detect_events(line, timestamp)`: classification followed by the
kind-independent numeric extractions (signal strength when both `"Signal:"`
and `"dBm"` occur, swallowing parse failures; BSSID when `"BSSID:"`
occurs). -/
def detect_events (line timestamp : String) : FailoverEvent :=
  let e₁ := classify line timestamp
  let e₂ :=
    if strContains line "Signal:" && strContains line "dBm" then
      match signalOf line with
      | some n => { e₁ with signal_strength := n }
      | none => e₁
    else e₁
  if strContains line "BSSID:" then { e₂ with active_ap_mac := macOf line } else e₂

/-- The observer's three on-disk logs: the raw verbatim trace, the durable
events CSV, and the failover-only trace. -/
structure Logs where
  raw : List String
  events_csv : List FailoverEvent
  failover_log : List String
deriving DecidableEq, Repr

/-- The 50-hyphen rule `log_event_csv` writes after each failover block. -/
def hyphenRule : String := String.mk (List.replicate 50 '-')

/-- `process_line(line)` on an already-stripped line: an empty line is
dropped entirely; otherwise the line is appended to the raw trace and
`detect_events` runs, appending the failover block to the failover trace
when the failover marker matched, and appending the event to the durable
CSV exactly when its kind is not `unknown`. -/
def process_line (logs : Logs) (line timestamp : String) : Logs :=
  if line = "" then logs
  else
    let e := detect_events line timestamp
    { raw := logs.raw ++ [timestamp ++ " | " ++ line],
      failover_log :=
        if strContains line "FAILOVER DETECTED" then
          logs.failover_log ++
            [timestamp ++ " | FAILOVER EVENT", "Details: " ++ line, hyphenRule]
        else logs.failover_log,
      events_csv :=
        if e.event_type != "unknown" then logs.events_csv ++ [e] else logs.events_csv }

/-- State of the node agent's `DeviceManager` relevant to LED control:
the set of initialized device names, the physical LED level (`led.is_lit`,
initially off), the `last_led_state` bookkeeping map, the `led_timers` map
(each armed `threading.Timer` recorded by its absolute fire time), and the
`system_config["led_auto_off_time"]` duration. -/
structure DMState where
  devices : List String
  lit : List (String × Bool)
  last_led_state : List (String × Bool)
  led_timers : List (String × Nat)
  led_auto_off_time : Nat
deriving DecidableEq, Repr

/-- The structured result dict `control_led` returns. -/
structure CmdResult where
  success : Bool
  state : Option String
  message : String
deriving DecidableEq, Repr

/-- `DeviceManager._set_auto_off_timer`: when the configured duration is
positive, cancel and drop any armed timer for the LED
(`_clear_auto_off_timer`) and arm a fresh one firing `led_auto_off_time`
after `now`. -/
def setAutoOffTimer (st : DMState) (led_name : String) (now : Nat) : DMState :=
  if st.led_auto_off_time > 0 then
    { st with led_timers :=
        dictRemove led_name st.led_timers ++ [(led_name, now + st.led_auto_off_time)] }
  else st

/-- `DeviceManager._clear_auto_off_timer`: cancel and drop the armed timer
for the LED, if any. -/
def clearAutoOffTimer (st : DMState) (led_name : String) : DMState :=
  { st with led_timers := dictRemove led_name st.led_timers }

/-- `DeviceManager.control_led(led_name, action, value)`.  Durations for
`blink`/`pulse` are modelled as naturals; the GPIO calls themselves are
reflected in the `lit` map. -/
def control_led (st : DMState) (led_name action : String) (value : Option Nat)
    (now : Nat) : DMState × CmdResult :=
  if !(st.devices.contains led_name) then
    (st, ⟨false, none, "LED " ++ led_name ++ " not available"⟩)
  else if action = "on" then
    let st₁ : DMState :=
      { st with lit := dictInsert led_name true st.lit,
                last_led_state := dictInsert led_name true st.last_led_state }
    (setAutoOffTimer st₁ led_name now,
     ⟨true, some "on", "LED " ++ led_name ++ " turned on"⟩)
  else if action = "off" then
    let st₁ : DMState :=
      { st with lit := dictInsert led_name false st.lit,
                last_led_state := dictInsert led_name false st.last_led_state }
    (clearAutoOffTimer st₁ led_name,
     ⟨true, some "off", "LED " ++ led_name ++ " turned off"⟩)
  else if action = "toggle" then
    if (dictGet led_name st.lit).getD false then
      let st₁ : DMState :=
        { st with lit := dictInsert led_name false st.lit,
                  last_led_state := dictInsert led_name false st.last_led_state }
      (clearAutoOffTimer st₁ led_name,
       ⟨true, some "off", "LED " ++ led_name ++ " toggled off"⟩)
    else
      let st₁ : DMState :=
        { st with lit := dictInsert led_name true st.lit,
                  last_led_state := dictInsert led_name true st.last_led_state }
      (setAutoOffTimer st₁ led_name now,
       ⟨true, some "on", "LED " ++ led_name ++ " toggled on"⟩)
  else if action = "blink" then
    (st, ⟨true, some "blinking",
          "LED " ++ led_name ++ " blinking for " ++ toString (value.getD 1) ++ "s"⟩)
  else if action = "pulse" then
    (st, ⟨true, some "pulsing", "LED " ++ led_name ++ " pulsing"⟩)
  else
    (st, ⟨false, none, "Unknown action: " ++ action⟩)

/-- The armed auto-off `threading.Timer` firing: its callback is
`lambda: self.control_led(led_name, "off")` — the same `off` path explicit
requests use. -/
def fireAutoOffTimer (st : DMState) (led_name : String) (now : Nat) :
    DMState × CmdResult :=
  control_led st led_name "off" none now

/-- One operation against the dashboard process, for whole-lifetime
registry statements: a heartbeat ingest, a status query, a nodes query, or
an LED relay call. -/
inductive DashOp where
  | heartbeat (body : Option Json) (now : Nat) : DashOp
  | statusQuery (now uptime : Nat) : DashOp
  | nodesQuery (now : Nat) : DashOp
  | ledToggle (node_name : String) (net : NetOutcome) (now : Nat) : DashOp

/-- Effect of one dashboard operation on the global state: only
`receive_heartbeat` writes it; `get_status`, `list_nodes` and `toggle_led`
are read-only with respect to `connected_clients`/`last_heartbeat`. -/
def dashStep (s : ServerState) : DashOp → ServerState
  | .heartbeat body now => (receive_heartbeat s body now).1
  | .statusQuery _ _ => s
  | .nodesQuery _ => s
  | .ledToggle _ _ _ => s

/-- Run a whole sequence of dashboard operations. -/
def runOps (s : ServerState) (ops : List DashOp) : ServerState :=
  ops.foldl dashStep s

/-- Ingest a sequence of parseable heartbeat bodies (each with its server
arrival time), threading the dashboard state. -/
def ingestAll (s : ServerState) (reqs : List (Json × Nat)) : ServerState :=
  reqs.foldl (fun st p => (receive_heartbeat st (some p.1) p.2).1) s

/-- Number of bindings for a key (a real Python dict has at most one). -/
def keyCount {κ α : Type} [DecidableEq κ] (k : κ) (l : List (κ × α)) : Nat :=
  (l.filter (fun p => decide (p.1 = k))).length

theorem dictGet_insert {κ α : Type} [DecidableEq κ] (k k₁ : κ) (v : α) (l : List (κ × α)) :
    dictGet k (dictInsert k₁ v l) = if k₁ = k then some v else dictGet k l := by
  induction l with
  | nil => by_cases h : k₁ = k <;> simp [dictGet, dictInsert, h]
  | cons p rest ih =>
    obtain ⟨k₂, v₂⟩ := p
    simp only [dictInsert]
    by_cases h₂ : k₂ = k₁
    · subst h₂
      by_cases h : k₂ = k <;> simp [dictGet, h]
    · rw [if_neg h₂]
      by_cases h : k₂ = k
      · subst h
        have h1 : ¬ k₁ = k₂ := fun hh => h₂ hh.symm
        simp [dictGet, h1]
      · by_cases h1 : k₁ = k
        · subst h1
          simp [dictGet, h, ih]
        · simp [dictGet, h, h1, ih]

theorem dictInsert_idem {κ α : Type} [DecidableEq κ] (k : κ) (v : α) (l : List (κ × α)) :
    dictInsert k v (dictInsert k v l) = dictInsert k v l := by
  induction l with
  | nil => simp [dictInsert]
  | cons p rest ih =>
    obtain ⟨k₂, v₂⟩ := p
    by_cases h : k₂ = k <;> simp [dictInsert, h, ih]

theorem dictGet_remove_self {κ α : Type} [DecidableEq κ] (k : κ) (l : List (κ × α)) :
    dictGet k (dictRemove k l) = none := by
  induction l with
  | nil => rfl
  | cons p rest ih =>
    obtain ⟨k₂, v₂⟩ := p
    by_cases h : k₂ = k <;> simp [dictGet, dictRemove, List.filter, h] <;>
      simpa [dictRemove] using ih

theorem dictGet_remove_append {κ α : Type} [DecidableEq κ] (k : κ) (v : α) (l : List (κ × α)) :
    dictGet k (dictRemove k l ++ [(k, v)]) = some v := by
  induction l with
  | nil => simp [dictGet, dictRemove]
  | cons p rest ih =>
    obtain ⟨k₂, v₂⟩ := p
    by_cases h : k₂ = k <;> simp [dictGet, dictRemove, List.filter, h] <;>
      simpa [dictRemove] using ih

theorem keyCount_remove_append {κ α : Type} [DecidableEq κ] (k : κ) (v : α) (l : List (κ × α)) :
    keyCount k (dictRemove k l ++ [(k, v)]) = 1 := by
  induction l with
  | nil => simp [keyCount, dictRemove, List.filter]
  | cons p rest ih =>
    obtain ⟨k₂, v₂⟩ := p
    by_cases h : k₂ = k <;>
      simp [keyCount, dictRemove, List.filter, h] at ih ⊢

/-- Effect of one successful heartbeat ingest: when the body carries a
truthy, hashable `node` value, the new state is exactly the old one with
that identity's registry entry and heartbeat time overwritten. -/
theorem receive_heartbeat_step (s : ServerState) (b : Json) (t : Nat) (name : Json)
    (k : JsonKey) (hget : b.get "node" = some name) (htr : name.truthy = true)
    (hk : name.asKey = some k) :
    (receive_heartbeat s (some b) t).1 =
      ⟨dictInsert k (buildDescriptor b) s.connected_clients,
       dictInsert k t s.last_heartbeat⟩ := by
  rcases b with _ | bb | nn | ss | elems | fields
  · simp [Json.get] at hget
  · simp [Json.get] at hget
  · simp [Json.get] at hget
  · simp [Json.get] at hget
  · simp [Json.get] at hget
  · simp [receive_heartbeat, hget, htr, hk]

/-- Claim C1: after a sequence of heartbeat ingests all carrying the same
identity, the registry entry for that identity is exactly the descriptor
built from the last request body — a wholesale overwrite with no field-level
merge of the earlier heartbeats. -/
theorem heartbeat_overwrite_last (s : ServerState) (name : Json) (k : JsonKey)
    (reqs : List (Json × Nat)) (b : Json) (t : Nat)
    (hall : ∀ p ∈ reqs ++ [(b, t)], (p.1).get "node" = some name)
    (htr : name.truthy = true) (hk : name.asKey = some k) :
    dictGet k (ingestAll s (reqs ++ [(b, t)])).connected_clients
      = some (buildDescriptor b) := by
  have hb : b.get "node" = some name := hall (b, t) (by simp)
  have hsplit : ingestAll s (reqs ++ [(b, t)])
      = (receive_heartbeat (ingestAll s reqs) (some b) t).1 := by
    simp [ingestAll, List.foldl_append]
  rw [hsplit, receive_heartbeat_step _ b t name k hb htr hk]
  simp [dictGet_insert]

/-- A first heartbeat body for the `pumpkin` identity. -/
def hbBody₁ : Json :=
  .obj [("node", .str "pumpkin"), ("ip", .str "192.168.4.11"), ("status", .str "online")]

/-- A second heartbeat body for the same identity with different fields. -/
def hbBody₂ : Json :=
  .obj [("node", .str "pumpkin"), ("ip", .str "192.168.4.99"),
        ("status", .str "online"), ("devices", .arr [.str "led_1"])]

theorem heartbeat_overwrite_last_witness :
    dictGet (.str "pumpkin")
        (ingestAll ⟨[], []⟩ ([(hbBody₁, 1)] ++ [(hbBody₂, 2)])).connected_clients
      = some (buildDescriptor hbBody₂) :=
  heartbeat_overwrite_last ⟨[], []⟩ (.str "pumpkin") (.str "pumpkin")
    [(hbBody₁, 1)] hbBody₂ 2
    (by
      intro p hp
      simp only [List.cons_append, List.nil_append, List.mem_cons,
        List.not_mem_nil, or_false] at hp
      rcases hp with rfl | rfl <;> rfl)
    rfl rfl

/-- Claim C2: relaying to an identity absent from the registry yields the
404 `NodeUnknown` failure (success flag false plus a message) and issues no
outbound request, whatever the network would have answered. -/
theorem relay_unknown_node (s : ServerState) (node_name : String) (net : NetOutcome)
    (now : Nat) (h : dictGet (.str node_name) s.connected_clients = none) :
    toggle_led s node_name net now =
      (⟨404, .obj [("success", .bool false),
                   ("message", .str ("Node " ++ node_name ++ " not connected"))]⟩, []) := by
  simp [toggle_led, h]

theorem relay_unknown_node_witness :
    toggle_led ⟨[], []⟩ "ghost" .timeout 0 =
      (⟨404, .obj [("success", .bool false),
                   ("message", .str "Node ghost not connected")]⟩, []) :=
  relay_unknown_node ⟨[], []⟩ "ghost" .timeout 0 rfl

/-- Claim C6: ingesting the very same heartbeat body twice (at any two
server times) leaves the registry mapping — and hence the exposed client
count — identical to its value after the first ingest. -/
theorem heartbeat_idempotent (s : ServerState) (b : Option Json) (t₁ t₂ : Nat) :
    ((receive_heartbeat (receive_heartbeat s b t₁).1 b t₂).1).connected_clients
        = ((receive_heartbeat s b t₁).1).connected_clients ∧
    ((receive_heartbeat (receive_heartbeat s b t₁).1 b t₂).1).connected_clients.length
        = ((receive_heartbeat s b t₁).1).connected_clients.length := by
  have hmain :
      ((receive_heartbeat (receive_heartbeat s b t₁).1 b t₂).1).connected_clients
        = ((receive_heartbeat s b t₁).1).connected_clients := by
    rcases b with _ | data
    · rfl
    rcases data with _ | bb | nn | ss | elems | fields
    · rfl
    · rfl
    · rfl
    · rfl
    · rfl
    rcases hget : (Json.obj fields).get "node" with _ | nodeVal
    · simp [receive_heartbeat, hget]
    by_cases htr : nodeVal.truthy = true
    · rcases hk : nodeVal.asKey with _ | k
      · simp [receive_heartbeat, hget, htr, hk]
      · simp [receive_heartbeat, hget, htr, hk, dictInsert_idem]
    · simp [receive_heartbeat, hget, htr]
  exact ⟨hmain, by rw [hmain]⟩

/-- Claim C10: a parseable heartbeat body whose `node` field is missing or
empty changes neither the registry nor the last-heartbeat map, and is still
acknowledged with success and a server timestamp. -/
theorem heartbeat_missing_node_noop (s : ServerState) (fields : List (String × Json))
    (now : Nat)
    (hnode : (Json.obj fields).get "node" = none ∨
             (Json.obj fields).get "node" = some (.str "")) :
    (receive_heartbeat s (some (.obj fields)) now).1 = s ∧
    (receive_heartbeat s (some (.obj fields)) now).2 = ⟨200, ackBody now⟩ := by
  rcases hnode with h | h <;> simp [receive_heartbeat, h, Json.truthy]

theorem heartbeat_missing_node_noop_witness :
    ((receive_heartbeat ⟨[], []⟩ (some (.obj [("ip", .str "10.0.0.1")])) 5).1
        = (⟨[], []⟩ : ServerState) ∧
     (receive_heartbeat ⟨[], []⟩ (some (.obj [("ip", .str "10.0.0.1")])) 5).2
        = ⟨200, ackBody 5⟩) ∧
    ((receive_heartbeat ⟨[], []⟩ (some (.obj [("node", .str "")])) 5).1
        = (⟨[], []⟩ : ServerState) ∧
     (receive_heartbeat ⟨[], []⟩ (some (.obj [("node", .str "")])) 5).2
        = ⟨200, ackBody 5⟩) :=
  ⟨heartbeat_missing_node_noop ⟨[], []⟩ [("ip", .str "10.0.0.1")] 5 (Or.inl rfl),
   heartbeat_missing_node_noop ⟨[], []⟩ [("node", .str "")] 5 (Or.inr rfl)⟩

/-- A heartbeat ingest never removes a registered identity: whatever the
body, the registry entry for `k` survives. -/
theorem receive_heartbeat_keeps (s : ServerState) (b : Option Json) (t : Nat) (k : JsonKey)
    (h : (dictGet k s.connected_clients).isSome = true) :
    (dictGet k ((receive_heartbeat s b t).1).connected_clients).isSome = true := by
  rcases b with _ | data
  · exact h
  rcases data with _ | bb | nn | ss | elems | fields
  · exact h
  · exact h
  · exact h
  · exact h
  · exact h
  rcases hget : (Json.obj fields).get "node" with _ | nodeVal
  · simpa [receive_heartbeat, hget] using h
  by_cases htr : nodeVal.truthy = true
  · rcases hk : nodeVal.asKey with _ | k₁
    · simpa [receive_heartbeat, hget, htr, hk] using h
    · by_cases hkk : k₁ = k <;>
        simp [receive_heartbeat, hget, htr, hk, dictGet_insert, hkk, h]
  · simpa [receive_heartbeat, hget, htr] using h

/-- Claim C9: no dashboard operation evicts a registry entry — across any
sequence of heartbeat ingests, status/nodes queries and LED relay calls, an
identity once present in `connected_clients` stays present. -/
theorem registry_no_eviction (s : ServerState) (ops : List DashOp) (k : JsonKey)
    (h : (dictGet k s.connected_clients).isSome = true) :
    (dictGet k (runOps s ops).connected_clients).isSome = true := by
  induction ops generalizing s with
  | nil => exact h
  | cons op rest ih =>
    cases op with
    | heartbeat body now => exact ih _ (receive_heartbeat_keeps s body now k h)
    | statusQuery now uptime => exact ih _ h
    | nodesQuery now => exact ih _ h
    | ledToggle nm net now => exact ih _ h

/-- A demo registry: `cherry` registered with an empty address, `pumpkin`
registered at `192.168.4.11`. -/
def relayDemoState : ServerState :=
  ⟨[(.str "cherry", ⟨.str "", .str "online", .null, .arr [], .obj []⟩),
    (.str "pumpkin", ⟨.str "192.168.4.11", .str "online", .null, .arr [], .obj []⟩)], []⟩

theorem registry_no_eviction_witness :
    (dictGet (.str "pumpkin")
      (runOps relayDemoState
        [.statusQuery 1 1, .heartbeat (some hbBody₂) 2, .ledToggle "pumpkin" .timeout 3,
         .nodesQuery 4, .heartbeat none 5]).connected_clients).isSome = true :=
  registry_no_eviction relayDemoState _ (.str "pumpkin") rfl

/-- Claim C3: relaying to a registered identity with a truthy address
issues exactly one outbound request bounded by a 5-unit timeout, and the
transport failures stay distinguishable — `Timeout` → 408, connection
refused → 503, any other fault → 500 with the underlying message; a
registered identity whose stored address is falsy (empty) yields the 400
`NoAddress` failure with no outbound request. -/
theorem relay_transport_outcomes (s : ServerState) (node_name : String)
    (d : NodeDescriptor) (now : Nat)
    (h : dictGet (.str node_name) s.connected_clients = some d) :
    (d.ip.truthy = false →
      ∀ net, toggle_led s node_name net now =
        (⟨400, .obj [("success", .bool false),
                     ("message", .str ("No IP address for node " ++ node_name))]⟩, []))
    ∧ (d.ip.truthy = true →
        (∀ net, (toggle_led s node_name net now).2 =
            [⟨ledUrl d.ip node_name, .obj [("state", .str "toggle")], 5⟩])
        ∧ toggle_led s node_name .timeout now =
            (⟨408, .obj [("success", .bool false),
                         ("message", .str ("Timeout connecting to " ++ node_name))]⟩,
             [⟨ledUrl d.ip node_name, .obj [("state", .str "toggle")], 5⟩])
        ∧ toggle_led s node_name .connError now =
            (⟨503, .obj [("success", .bool false),
                         ("message", .str ("Cannot connect to " ++ node_name ++ " at " ++
                                           pyStr d.ip))]⟩,
             [⟨ledUrl d.ip node_name, .obj [("state", .str "toggle")], 5⟩])
        ∧ ∀ msg, toggle_led s node_name (.otherError msg) now =
            (⟨500, .obj [("success", .bool false),
                         ("message", .str ("Error: " ++ msg))]⟩,
             [⟨ledUrl d.ip node_name, .obj [("state", .str "toggle")], 5⟩])) := by
  constructor
  · intro htr net
    simp [toggle_led, h, htr]
  · intro htr
    refine ⟨?_, ?_, ?_, ?_⟩
    · intro net
      cases net <;> simp [toggle_led, h, htr]
    · simp [toggle_led, h, htr]
    · simp [toggle_led, h, htr]
    · intro msg
      simp [toggle_led, h, htr]

/-- The descriptor stored for `cherry` in `relayDemoState`. -/
def cherryDesc : NodeDescriptor := ⟨.str "", .str "online", .null, .arr [], .obj []⟩

/-- The descriptor stored for `pumpkin` in `relayDemoState`. -/
def pumpkinDesc : NodeDescriptor :=
  ⟨.str "192.168.4.11", .str "online", .null, .arr [], .obj []⟩

/-- The URL the relay posts to for `pumpkin` in `relayDemoState`. -/
def pumpkinUrl : String := "http://192.168.4.11:5000/pumpkin/api/v1/actuators/led"

theorem relay_transport_outcomes_witness :
    toggle_led relayDemoState "cherry" .timeout 0 =
      (⟨400, .obj [("success", .bool false),
                   ("message", .str "No IP address for node cherry")]⟩, []) ∧
    toggle_led relayDemoState "pumpkin" .timeout 0 =
      (⟨408, .obj [("success", .bool false),
                   ("message", .str "Timeout connecting to pumpkin")]⟩,
       [⟨pumpkinUrl, .obj [("state", .str "toggle")], 5⟩]) ∧
    toggle_led relayDemoState "pumpkin" .connError 0 =
      (⟨503, .obj [("success", .bool false),
                   ("message", .str "Cannot connect to pumpkin at 192.168.4.11")]⟩,
       [⟨pumpkinUrl, .obj [("state", .str "toggle")], 5⟩]) ∧
    toggle_led relayDemoState "pumpkin" (.otherError "boom") 0 =
      (⟨500, .obj [("success", .bool false), ("message", .str "Error: boom")]⟩,
       [⟨pumpkinUrl, .obj [("state", .str "toggle")], 5⟩]) :=
  ⟨(relay_transport_outcomes relayDemoState "cherry" cherryDesc 0 rfl).1 rfl .timeout,
   ((relay_transport_outcomes relayDemoState "pumpkin" pumpkinDesc 0 rfl).2 rfl).2.1,
   ((relay_transport_outcomes relayDemoState "pumpkin" pumpkinDesc 0 rfl).2 rfl).2.2.1,
   ((relay_transport_outcomes relayDemoState "pumpkin" pumpkinDesc 0 rfl).2 rfl).2.2.2 "boom"⟩

/-- Modelled from the spec (refinement comparison for the 200-response
branch): "remote accepts and returns a structured success/failure payload →
pass through verbatim plus a success flag" — the response body would have to
carry every field of the payload unchanged, alongside a success flag. -/
def passesThroughVerbatim (payload : List (String × Json)) (resp : Json) : Prop :=
  resp.get "success" = some (.bool true) ∧
  ∀ kv ∈ payload, resp.get kv.1 = some kv.2

/-- Claim C5 counterexample: for the concrete 200 payload
`[("state","on"), ("mode","auto")]` the relay's response body does not carry
the payload verbatim — its `mode` field is dropped. -/
theorem relay_200_not_verbatim :
    ¬ passesThroughVerbatim [("state", Json.str "on"), ("mode", Json.str "auto")]
        (toggle_led relayDemoState "pumpkin"
          (.ok [("state", Json.str "on"), ("mode", Json.str "auto")]) 0).1.body := by
  intro hvb
  have hmode := hvb.2 ("mode", Json.str "auto") (by simp)
  have hnone : (toggle_led relayDemoState "pumpkin"
      (.ok [("state", Json.str "on"), ("mode", Json.str "auto")]) 0).1.body.get "mode"
      = none := rfl
  rw [hnone] at hmode
  exact Option.noConfusion hmode

/-- Claim C5 (amended): when the remote answers 200 with a JSON object
payload, the relay returns a fresh 200 body carrying a success flag set to
true, only the payload's `state` field (defaulting to `"unknown"`), the node
name and a server timestamp — other payload fields are not passed through. -/
theorem relay_200_state_extraction (s : ServerState) (node_name : String)
    (d : NodeDescriptor) (now : Nat) (payload : List (String × Json))
    (h : dictGet (.str node_name) s.connected_clients = some d)
    (htr : d.ip.truthy = true) :
    toggle_led s node_name (.ok payload) now =
      (⟨200, .obj [("success", .bool true),
                   ("state", (dictGet "state" payload).getD (.str "unknown")),
                   ("node", .str node_name), ("timestamp", .num now)]⟩,
       [⟨ledUrl d.ip node_name, .obj [("state", .str "toggle")], 5⟩]) := by
  simp [toggle_led, h, htr]

theorem relay_200_state_extraction_witness :
    toggle_led relayDemoState "pumpkin"
        (.ok [("state", Json.str "on"), ("mode", Json.str "auto")]) 9 =
      (⟨200, .obj [("success", .bool true), ("state", .str "on"),
                   ("node", .str "pumpkin"), ("timestamp", .num 9)]⟩,
       [⟨pumpkinUrl, .obj [("state", .str "toggle")], 5⟩]) :=
  relay_200_state_extraction relayDemoState "pumpkin" pumpkinDesc 9
    [("state", Json.str "on"), ("mode", Json.str "auto")] rfl rfl

/-- The classification cascade never sets a signal strength: it stays at the
default 0. -/
theorem classify_signal (line ts : String) : (classify line ts).signal_strength = 0 := by
  simp only [classify]
  repeat' split
  all_goals rfl

/-- The classification cascade never sets the AP hardware identifier. -/
theorem classify_mac (line ts : String) : (classify line ts).active_ap_mac = "" := by
  simp only [classify]
  repeat' split
  all_goals rfl

/-- The numeric extractions do not alter the event kind chosen by the
classification cascade. -/
theorem detect_events_type (line ts : String) :
    (detect_events line ts).event_type = (classify line ts).event_type := by
  simp only [detect_events]
  rcases hs : signalOf line with _ | n <;>
    by_cases hc : (strContains line "Signal:" && strContains line "dBm") = true <;>
      by_cases hb : strContains line "BSSID:" = true <;>
        simp [hc, hb, hs]

/-- The reported signal strength is a function of the line's markers alone,
independent of the classification: the parsed value when both `"Signal:"`
and `"dBm"` occur and the numeric text parses, 0 otherwise. -/
theorem detect_events_signal (line ts : String) :
    (detect_events line ts).signal_strength =
      (if strContains line "Signal:" && strContains line "dBm" then (signalOf line).getD 0
       else 0) := by
  have hcl := classify_signal line ts
  simp only [detect_events]
  rcases hs : signalOf line with _ | n <;>
    by_cases hc : (strContains line "Signal:" && strContains line "dBm") = true <;>
      by_cases hb : strContains line "BSSID:" = true <;>
        simp [hc, hb, hs, hcl]

/-- A line matching none of the classifier's patterns keeps the `unknown`
defaults. -/
theorem classify_unknown (line ts : String)
    (h1 : strContains line "FAILOVER DETECTED" = false)
    (h2 : strContains line "Primary AP" = false)
    (h3 : strContains line "Backup AP" = false)
    (h4 : strContains line "Apple network found" = false)
    (h5 : strContains line "No Apple networks found" = false) :
    (classify line ts).event_type = "unknown" := by
  simp [classify, h1, h2, h3, h4, h5]

/-- Claim C4: the failover classifier maps the literal failover line to kind
`failover` with the failover flag set, maps `"Primary AP: offline"` to
`primary_ap_offline`, classifies a line matching none of its patterns as
`unknown`, and `process_line` appends to the durable CSV exactly the
non-`unknown` events — an `unknown` line lands only in the raw trace. -/
theorem classifier_events_and_csv :
    ((detect_events "FAILOVER DETECTED: switching to backup" "t").event_type = "failover"
      ∧ (detect_events "FAILOVER DETECTED: switching to backup" "t").failover_detected
          = true)
    ∧ (detect_events "Primary AP: offline" "t").event_type = "primary_ap_offline"
    ∧ (∀ line ts,
        strContains line "FAILOVER DETECTED" = false →
        strContains line "Primary AP" = false →
        strContains line "Backup AP" = false →
        strContains line "Apple network found" = false →
        strContains line "No Apple networks found" = false →
        (detect_events line ts).event_type = "unknown")
    ∧ (∀ logs line ts, line ≠ "" → (detect_events line ts).event_type = "unknown" →
        (process_line logs line ts).events_csv = logs.events_csv
        ∧ (process_line logs line ts).raw = logs.raw ++ [ts ++ " | " ++ line])
    ∧ (∀ logs line ts, line ≠ "" → (detect_events line ts).event_type ≠ "unknown" →
        (process_line logs line ts).events_csv
          = logs.events_csv ++ [detect_events line ts]) := by
  refine ⟨⟨by decide, by decide⟩, by decide, ?_, ?_, ?_⟩
  · intro line ts h1 h2 h3 h4 h5
    rw [detect_events_type]
    exact classify_unknown line ts h1 h2 h3 h4 h5
  · intro logs line ts hline hunk
    constructor <;> simp [process_line, hline, hunk]
  · intro logs line ts hline hunk
    simp [process_line, hline, hunk]

theorem classifier_events_and_csv_witness :
    (detect_events "Hello world" "t").event_type = "unknown"
    ∧ (process_line ⟨["r0"], [], []⟩ "Hello world" "t").events_csv = []
    ∧ (process_line ⟨["r0"], [], []⟩ "Hello world" "t").raw = ["r0", "t | Hello world"]
    ∧ (process_line ⟨[], [], []⟩ "Primary AP: offline" "t").events_csv
        = [detect_events "Primary AP: offline" "t"] :=
  ⟨classifier_events_and_csv.2.2.1 "Hello world" "t" (by decide) (by decide) (by decide)
      (by decide) (by decide),
   (classifier_events_and_csv.2.2.2.1 ⟨["r0"], [], []⟩ "Hello world" "t" (by decide)
      (by decide)).1,
   (classifier_events_and_csv.2.2.2.1 ⟨["r0"], [], []⟩ "Hello world" "t" (by decide)
      (by decide)).2,
   classifier_events_and_csv.2.2.2.2 ⟨[], [], []⟩ "Primary AP: offline" "t" (by decide)
      (by decide)⟩

/-- Claim C8: the signal-strength field equals the extraction determined by
the `"Signal:"`/`"dBm"` markers alone, for every line and hence for every
event kind; a parseable reading like `"Signal: -67dBm"` yields −67 whether
the line classifies as `failover` or `unknown`, and malformed numeric text
leaves the default 0 without surfacing an error. -/
theorem signal_extraction_independent :
    (∀ line ts, (detect_events line ts).signal_strength =
        (if strContains line "Signal:" && strContains line "dBm" then (signalOf line).getD 0
         else 0))
    ∧ (detect_events "Signal: -67dBm" "t").signal_strength = -67
    ∧ ((detect_events "FAILOVER DETECTED Signal: -67dBm" "t").event_type = "failover"
        ∧ (detect_events "FAILOVER DETECTED Signal: -67dBm" "t").signal_strength = -67)
    ∧ (detect_events "Signal: -67dBm" "t").event_type = "unknown"
    ∧ ((detect_events "Signal: xydBm" "t").event_type = "unknown"
        ∧ (detect_events "Signal: xydBm" "t").signal_strength = 0) :=
  ⟨detect_events_signal, by decide, ⟨by decide, by decide⟩, by decide,
   ⟨by decide, by decide⟩⟩

/-- Claim C7: a second `on` issued before the auto-off duration elapses
cancels the first armed timer and re-arms: the device's only armed timer
afterwards fires at the second `on` time plus the duration (not the first),
and firing it drives the device through the ordinary `off` path — state off,
timer bookkeeping cleared. -/
theorem auto_off_rearm (st : DMState) (name : String) (t₁ t₂ : Nat)
    (hdev : st.devices.contains name = true)
    (hD : 0 < st.led_auto_off_time)
    (h12 : t₁ < t₂)
    (_h2 : t₂ < t₁ + st.led_auto_off_time) :
    dictGet name
        ((control_led (control_led st name "on" none t₁).1 name "on" none t₂).1).led_timers
      = some (t₂ + st.led_auto_off_time)
    ∧ keyCount name
        ((control_led (control_led st name "on" none t₁).1 name "on" none t₂).1).led_timers
      = 1
    ∧ dictGet name
        ((control_led (control_led st name "on" none t₁).1 name "on" none t₂).1).led_timers
      ≠ some (t₁ + st.led_auto_off_time)
    ∧ dictGet name
        ((fireAutoOffTimer
            ((control_led (control_led st name "on" none t₁).1 name "on" none t₂).1)
            name (t₂ + st.led_auto_off_time)).1).last_led_state = some false
    ∧ dictGet name
        ((fireAutoOffTimer
            ((control_led (control_led st name "on" none t₁).1 name "on" none t₂).1)
            name (t₂ + st.led_auto_off_time)).1).led_timers = none := by
  have hmem : name ∈ st.devices := by simpa using hdev
  have hs1 : (control_led st name "on" none t₁).1 =
      { st with lit := dictInsert name true st.lit,
                last_led_state := dictInsert name true st.last_led_state,
                led_timers := dictRemove name st.led_timers ++
                  [(name, t₁ + st.led_auto_off_time)] } := by
    simp [control_led, hdev, hmem, setAutoOffTimer, hD]
  have hs2 : (control_led (control_led st name "on" none t₁).1 name "on" none t₂).1 =
      { st with lit := dictInsert name true (dictInsert name true st.lit),
                last_led_state :=
                  dictInsert name true (dictInsert name true st.last_led_state),
                led_timers := dictRemove name
                    (dictRemove name st.led_timers ++
                      [(name, t₁ + st.led_auto_off_time)]) ++
                  [(name, t₂ + st.led_auto_off_time)] } := by
    rw [hs1]
    simp [control_led, hdev, hmem, setAutoOffTimer, hD]
  have hget2 : dictGet name
      ((control_led (control_led st name "on" none t₁).1 name "on" none t₂).1).led_timers
      = some (t₂ + st.led_auto_off_time) := by
    rw [hs2]
    exact dictGet_remove_append name _ _
  refine ⟨hget2, ?_, ?_, ?_, ?_⟩
  · rw [hs2]
    exact keyCount_remove_append name _ _
  · rw [hget2]
    intro hcontra
    have := Option.some.inj hcontra
    omega
  · rw [fireAutoOffTimer, hs2]
    simp [control_led, hdev, hmem, clearAutoOffTimer, dictGet_insert]
  · rw [fireAutoOffTimer, hs2]
    simp [control_led, hdev, hmem, clearAutoOffTimer, dictGet_remove_self]

theorem auto_off_rearm_witness :
    dictGet "led_1"
        ((control_led (control_led ⟨["led_1"], [], [], [], 300⟩ "led_1" "on" none 0).1
            "led_1" "on" none 100).1).led_timers = some 400
    ∧ keyCount "led_1"
        ((control_led (control_led ⟨["led_1"], [], [], [], 300⟩ "led_1" "on" none 0).1
            "led_1" "on" none 100).1).led_timers = 1
    ∧ dictGet "led_1"
        ((control_led (control_led ⟨["led_1"], [], [], [], 300⟩ "led_1" "on" none 0).1
            "led_1" "on" none 100).1).led_timers ≠ some 300
    ∧ dictGet "led_1"
        ((fireAutoOffTimer
            ((control_led (control_led ⟨["led_1"], [], [], [], 300⟩ "led_1" "on" none 0).1
                "led_1" "on" none 100).1) "led_1" 400).1).last_led_state = some false
    ∧ dictGet "led_1"
        ((fireAutoOffTimer
            ((control_led (control_led ⟨["led_1"], [], [], [], 300⟩ "led_1" "on" none 0).1
                "led_1" "on" none 100).1) "led_1" 400).1).led_timers = none :=
  auto_off_rearm ⟨["led_1"], [], [], [], 300⟩ "led_1" 0 100 (by decide) (by decide)
    (by decide) (by decide)

end RpiIot
